import Mathlib

/-!
Shallow embedding of the two AWS Lambda database-initialization handlers of
the librechat-cdk repository:

* `src/lambda/init-postgres/init_postgres.py` (relational store)
* `src/lambda/init-docdb/init_docdb.py` (document store)

Python strings are `String`, optional dictionary keys are `Option String`,
the process environment is an explicit record, external collaborators
(Secrets Manager, the database server, the network) are explicit inputs.
Observable side effects (secret fetches, connection attempts, sleeps,
schema mutations) are recorded in an effect trace.
-/

namespace LibrechatInit

/-- Python truthiness of an optional string: `None` and `""` are falsy. -/
def truthy (s : Option String) : Bool :=
  match s with
  | none => false
  | some v => v ≠ ""

/-- Prefix test on character lists (structural, so it evaluates in the kernel). -/
def listIsPrefix : List Char → List Char → Bool
  | [], _ => true
  | _ :: _, [] => false
  | a :: as, b :: bs => a == b && listIsPrefix as bs

/-- Substring test on character lists: does `pat` occur in the haystack? -/
def containsSubList (pat : List Char) : List Char → Bool
  | [] => pat.isEmpty
  | c :: rest => listIsPrefix pat (c :: rest) || containsSubList pat rest

/-- Python `pat in s` substring test. -/
def containsSub (s pat : String) : Bool :=
  containsSubList pat.data s.data

/-- A raised Python exception: its class name (`type(e).__name__`) and message. -/
structure PyError where
  name : String
  msg : String
deriving DecidableEq, Repr

/-- Observable side effects of a handler invocation. -/
inductive Effect where
  /-- `secrets_client.get_secret_value(SecretId=id)` -/
  | secretsFetch (id : String)
  /-- `validate_network_connectivity(host, port, secret_id)` (document store only) -/
  | netValidate (host port : String)
  /-- one connection attempt inside `wait_for_db` -/
  | dbConnectAttempt
  /-- `time.sleep(...)` inside `wait_for_db` -/
  | sleep
  /-- a direct (post-polling) client connection to the database -/
  | dbConnect
  /-- schema-mutating statements (collection/index/DDL creation) -/
  | dbMutation
deriving DecidableEq, Repr

/-- A secret value stored in Secrets Manager, as the JSON object the handlers read. -/
structure Secret where
  username : Option String
  password : Option String
deriving DecidableEq, Repr

/-- The Secrets Manager store: `none` means the fetch raises. -/
def SecretStore := String → Option Secret

/-- The CloudFormation `ResourceProperties` object (string-valued keys). -/
structure Props where
  DBHost : Option String
  DBPort : Option String
  DBName : Option String
  SecretId : Option String
  DBUser : Option String
  DBPassword : Option String
deriving DecidableEq, Repr

/-- The empty `ResourceProperties` object (`event.get('ResourceProperties', {})`). -/
def Props.empty : Props := ⟨none, none, none, none, none, none⟩

/-- The Lambda invocation event, restricted to the keys the handlers read. -/
structure Event where
  RequestType : Option String
  PhysicalResourceId : Option String
  ResourceProperties : Option Props
  DBHost : Option String
  DBPort : Option String
  DBName : Option String
  SecretId : Option String
  DBUser : Option String
  DBPassword : Option String
deriving DecidableEq, Repr

/-- An event with every key absent. -/
def Event.empty : Event := ⟨none, none, none, none, none, none, none, none, none⟩

/-- The process environment variables the handlers read. -/
structure Env where
  DB_HOST : Option String
  DB_PORT : Option String
  DB_NAME : Option String
  DB_SECRET_ID : Option String
  DB_USER : Option String
  DB_PASSWORD : Option String
  MAX_RETRIES : Option Nat
  RETRY_DELAY : Option Nat
deriving DecidableEq, Repr

/-- An environment with every variable unset. -/
def Env.empty : Env := ⟨none, none, none, none, none, none, none, none⟩

/-! ## Document-store polling loop (`init_docdb.wait_for_db`) -/

/-- Outcome of one DocumentDB connection attempt, as classified by the
`except` clauses of `init_docdb.wait_for_db`: a `ServerSelectionTimeoutError`,
or any other exception (which includes `OperationFailure`, the error pymongo
raises on authentication failure) — both are handled by sleeping and retrying. -/
inductive DocAttempt where
  | success
  /-- `pymongo.errors.ServerSelectionTimeoutError` -/
  | serverTimeout
  /-- an authentication failure (`OperationFailure`), caught by the generic `except Exception` -/
  | authFailure
  /-- any other exception, caught by the generic `except Exception` -/
  | otherError
deriving DecidableEq, Repr

/-- Trace of a `wait_for_db` run: whether it returned `True`, how many
connection attempts were made, and the durations slept (in order). -/
structure DocWaitTrace where
  success : Bool
  attemptsMade : Nat
  sleeps : List Nat
deriving DecidableEq, Repr

/-- The `for i in range(max_retries)` loop of `init_docdb.wait_for_db`,
parameterized by the outcome of each attempt. `remaining` is the number of
loop iterations left, `i` the 0-based index of the current attempt,
`currentDelay` the mutable `current_delay` variable. On failure the loop
sleeps `current_delay` and doubles it (capped at 60) only when another
iteration remains (`i < max_retries - 1`). -/
def docdbWaitGo (att : Nat → DocAttempt) : Nat → Nat → Nat → DocWaitTrace
  | 0, i, _ => ⟨false, i, []⟩
  | remaining + 1, i, currentDelay =>
    match att i with
    | .success => ⟨true, i + 1, []⟩
    | _ =>
      if remaining > 0 then
        let rest := docdbWaitGo att remaining (i + 1) (min (currentDelay * 2) 60)
        ⟨rest.success, rest.attemptsMade, currentDelay :: rest.sleeps⟩
      else
        docdbWaitGo att remaining (i + 1) currentDelay

/-- `init_docdb.wait_for_db` with explicit retry parameters. -/
def docdbWait (att : Nat → DocAttempt) (maxRetries retryDelay : Nat) : DocWaitTrace :=
  docdbWaitGo att maxRetries 0 retryDelay

/-- The message of the exception raised when the document-store loop exhausts
its budget: `total_wait_time = max_retries * retry_delay` — a nominal figure
computed from the initial delay, not the recorded sleeps. -/
def docdbWaitMsg (maxRetries retryDelay : Nat) : String :=
  s!"DocumentDB did not become available after {maxRetries * retryDelay} seconds ({maxRetries} attempts)"

/-- Result of `init_docdb.wait_for_db`: `ok` on return, the raised exception otherwise. -/
def docdbWaitOutcome (att : Nat → DocAttempt) (maxRetries retryDelay : Nat) : Except PyError Unit :=
  if (docdbWait att maxRetries retryDelay).success then .ok ()
  else .error ⟨"Exception", docdbWaitMsg maxRetries retryDelay⟩

/-! ## Relational-store polling loop (`init_postgres.wait_for_db`) -/

/-- Outcome of one PostgreSQL connection attempt:
a `psycopg2.OperationalError` carrying its message (the code classifies it by
substring), any other exception, or success. -/
inductive PgAttempt where
  | success
  | opError (msg : String)
  | otherError (name msg : String)
deriving DecidableEq, Repr

/-- Result of `init_postgres.wait_for_db`. `exhausted` records the numbers the
raise message interpolates: the attempt count `max_retries` and the nominal
duration `max_retries * retry_delay / 60` minutes (before `:.1f` formatting)
— again computed from the initial delay, not from the time actually slept. -/
inductive PgWaitResult where
  | ok
  | authRaise (msg : String)
  | otherRaise (name msg : String)
  | exhausted (statedAttempts : Nat) (statedMinutes : ℚ)
deriving DecidableEq, Repr

/-- Trace of a `init_postgres.wait_for_db` run. Delays are rationals because
the computed delay involves `1.5 ** min(i, 10)` and sub-second jitter. -/
structure PgWaitTrace where
  result : PgWaitResult
  attemptsMade : Nat
  sleeps : List ℚ
deriving DecidableEq, Repr

/-- The backoff delay of `init_postgres.wait_for_db` for attempt `i`:
`min(retry_delay * (1.5 ** min(i, 10)), 60) + (time.time() % 5)`, with the
jitter term supplied as an input. (All float operations involved are exact
for the magnitudes at hand, so ℚ models them faithfully.) -/
def pgDelay (retryDelay : ℚ) (i : Nat) (jitter : ℚ) : ℚ :=
  min (retryDelay * (3 / 2 : ℚ) ^ (min i 10)) 60 + jitter

/-- The `for i in range(max_retries)` loop of `init_postgres.wait_for_db`.
An `OperationalError` is classified by an `if/elif` chain on its message:
"could not connect to server" first (log only), `elif` "password
authentication failed" re-raises immediately, before any sleep — so a
message containing both substrings takes the first branch and is retried.
Non-raising `OperationalError`s sleep the backoff-with-jitter delay when
another iteration remains; any other exception sleeps the constant
`retry_delay` when another iteration remains and is re-raised on the last
attempt. Falling out of the loop raises the exhaustion error. -/
def pgWaitGo (att : Nat → PgAttempt) (jitter : Nat → ℚ) (retryDelay : ℚ) :
    Nat → Nat → PgWaitTrace
  | 0, i => ⟨.exhausted i (i * retryDelay / 60), i, []⟩
  | remaining + 1, i =>
    match att i with
    | .success => ⟨.ok, i + 1, []⟩
    | .opError msg =>
      if !containsSub msg "could not connect to server" &&
          containsSub msg "password authentication failed" then
        ⟨.authRaise msg, i + 1, []⟩
      else if remaining > 0 then
        let rest := pgWaitGo att jitter retryDelay remaining (i + 1)
        ⟨rest.result, rest.attemptsMade, pgDelay retryDelay i (jitter i) :: rest.sleeps⟩
      else
        pgWaitGo att jitter retryDelay remaining (i + 1)
    | .otherError name msg =>
      if remaining > 0 then
        let rest := pgWaitGo att jitter retryDelay remaining (i + 1)
        ⟨rest.result, rest.attemptsMade, (retryDelay : ℚ) :: rest.sleeps⟩
      else
        ⟨.otherRaise name msg, i + 1, []⟩

/-- `init_postgres.wait_for_db` with explicit retry parameters. -/
def pgWait (att : Nat → PgAttempt) (jitter : Nat → ℚ) (maxRetries : Nat)
    (retryDelay : ℚ) : PgWaitTrace :=
  pgWaitGo att jitter retryDelay maxRetries 0

/-! ## Relational-store schema initialization (`init_postgres.init_pgvector`) -/

/-- Append `x` unless already present (the effect of `IF NOT EXISTS` DDL). -/
def addIfAbsent {α : Type} [DecidableEq α] (l : List α) (x : α) : List α :=
  if x ∈ l then l else l ++ [x]

/-- Catalog of the PostgreSQL objects `init_pgvector` touches. -/
structure PgSchema where
  extensions : List String
  tables : List String
  indexes : List String
  functions : List String
  triggers : List String
deriving DecidableEq, Repr

/-- A freshly created database: no schema objects yet. -/
def PgSchema.empty : PgSchema := ⟨[], [], [], [], []⟩

/-- `init_postgres.init_pgvector`, one transaction, statement by statement:
`CREATE EXTENSION IF NOT EXISTS vector`, `CREATE TABLE IF NOT EXISTS
embeddings`, `CREATE INDEX IF NOT EXISTS idx_embeddings_document_id`,
`CREATE INDEX IF NOT EXISTS idx_embeddings_embedding`, `CREATE OR REPLACE
FUNCTION update_updated_at_column`, and finally `CREATE TRIGGER
update_embeddings_updated_at` — which has no `IF NOT EXISTS`/`OR REPLACE`
form, so it errors when the trigger already exists. An error rolls the
transaction back (the caller's state is unchanged) and re-raises. -/
def init_pgvector (s : PgSchema) : Except PyError PgSchema :=
  let s1 := { s with extensions := addIfAbsent s.extensions "vector" }
  let s2 := { s1 with tables := addIfAbsent s1.tables "embeddings" }
  let s3 := { s2 with indexes := addIfAbsent s2.indexes "idx_embeddings_document_id" }
  let s4 := { s3 with indexes := addIfAbsent s3.indexes "idx_embeddings_embedding" }
  let s5 := { s4 with functions := addIfAbsent s4.functions "update_updated_at_column" }
  if "update_embeddings_updated_at" ∈ s5.triggers then
    .error ⟨"DuplicateObject",
            "trigger \x22update_embeddings_updated_at\x22 for relation \x22embeddings\x22 already exists"⟩
  else
    .ok { s5 with triggers := s5.triggers ++ ["update_embeddings_updated_at"] }

/-! ## Document-store schema initialization (`init_docdb.init_collections`) -/

/-- The static `collections` map of `init_collections`: collection name to
the list of index specifications (key pattern plus options, encoded as
strings; two specifications are equal iff the pymongo calls are identical). -/
def docdbSchema : List (String × List String) :=
  [("users", ["email:1!unique", "username:1!unique", "createdAt:1"]),
   ("conversations", ["userId:1,createdAt:-1", "endpoint:1", "title:text"]),
   ("messages", ["conversationId:1,createdAt:1", "userId:1", "parentMessageId:1"]),
   ("presets", ["userId:1", "title:1"]),
   ("files", ["userId:1,createdAt:-1", "type:1", "filename:1"]),
   ("assistants", ["userId:1", "name:1"]),
   ("tools", ["userId:1", "name:1", "type:1"]),
   ("sessions", ["userId:1", "expiresAt:1!ttl0"])]

/-- Catalog of the DocumentDB objects `init_collections` touches. -/
structure DocDbState where
  collections : List String
  indexes : List (String × String)
deriving DecidableEq, Repr

/-- A freshly created document database. -/
def DocDbState.empty : DocDbState := ⟨[], []⟩

/-- `db.create_collection(name)` guarded by the
`if collection_name not in db.list_collection_names()` check. -/
def createCollectionStep (s : DocDbState) (name : String) : DocDbState :=
  if name ∈ s.collections then s else { s with collections := s.collections ++ [name] }

/-- `collection.create_index(spec)`: re-creating an index with an identical
specification is a no-op in MongoDB/DocumentDB, and the code additionally
swallows `OperationFailure` messages containing "already exists". -/
def createIndexStep (s : DocDbState) (coll key : String) : DocDbState :=
  { s with indexes := addIfAbsent s.indexes (coll, key) }

/-- One iteration of the `for collection_name, indexes in collections.items()` loop. -/
def initCollectionEntry (s : DocDbState) (entry : String × List String) : DocDbState :=
  let s1 := createCollectionStep s entry.1
  entry.2.foldl (fun t k => createIndexStep t entry.1 k) s1

/-- `init_docdb.init_collections`: the per-collection loop followed by the
three unconditional cross-cutting index creations. -/
def init_collections (s : DocDbState) : DocDbState :=
  let s1 := docdbSchema.foldl initCollectionEntry s
  let s2 := createIndexStep s1 "users" "lastLogin:-1"
  let s3 := createIndexStep s2 "conversations" "updatedAt:-1"
  createIndexStep s3 "messages" "model:1"

/-! ## Connection cleanup (`init_postgres.safe_close_connection`) -/

/-- A psycopg2 connection: just its `closed` flag. -/
structure PgConn where
  closed : Bool
deriving DecidableEq, Repr

/-- `init_postgres.safe_close_connection`. The body reads
`if connection: / try: / if not connection.closed: safe_close_connection(connection)`
— it recurses into itself instead of calling `connection.close()`. `fuel`
is the Python recursion-depth budget: when it runs out, the interpreter's
`RecursionError` is caught by the frame's `except Exception` and the
function returns with the connection state unchanged. -/
def safe_close_connection (fuel : Nat) (conn : Option PgConn) : Option PgConn :=
  match conn with
  | none => none
  | some c =>
    match fuel with
    | 0 => some c
    | fuel + 1 => if c.closed then some c else safe_close_connection fuel (some c)

/-! ## Connection-parameter resolution (both handlers) -/

/-- `event.get('ResourceProperties', {})`. -/
def Event.props (e : Event) : Props := e.ResourceProperties.getD Props.empty

/-- `resource_props.get('DBHost', event.get('DBHost', os.environ.get('DB_HOST')))`. -/
def pg_db_host (env : Env) (e : Event) : Option String :=
  e.props.DBHost <|> e.DBHost <|> env.DB_HOST

/-- `resource_props.get('DBPort', event.get('DBPort', os.environ.get('DB_PORT', '5432')))`. -/
def pg_db_port (env : Env) (e : Event) : String :=
  e.props.DBPort.getD (e.DBPort.getD (env.DB_PORT.getD "5432"))

/-- `resource_props.get('DBName', event.get('DBName', os.environ.get('DB_NAME', 'librechat')))`. -/
def pg_db_name (env : Env) (e : Event) : String :=
  e.props.DBName.getD (e.DBName.getD (env.DB_NAME.getD "librechat"))

/-- `resource_props.get('SecretId', event.get('SecretId', os.environ.get('DB_SECRET_ID')))`. -/
def pg_secret_id (env : Env) (e : Event) : Option String :=
  e.props.SecretId <|> e.SecretId <|> env.DB_SECRET_ID

/-- Credential resolution of the relational handler (`init_postgres.handler`
lines 215–226): when a truthy secret id resolved, fetch it (raising on
failure, as `get_db_credentials` does) and read `username` (default
`postgres`) and `password` from its fields; otherwise
`event.get('DBUser', os.environ.get('DB_USER', 'postgres'))` and
`event.get('DBPassword', os.environ.get('DB_PASSWORD'))`. The returned
effect list records the Secrets Manager call. -/
def pgCreds (env : Env) (secrets : SecretStore) (e : Event) :
    List Effect × Except PyError (String × Option String) :=
  let sid := pg_secret_id env e
  if truthy sid then
    let id := sid.getD ""
    match secrets id with
    | none => ([.secretsFetch id], .error ⟨"Exception", "Failed to retrieve secret " ++ id⟩)
    | some sec => ([.secretsFetch id], .ok (sec.username.getD "postgres", sec.password))
  else
    ([], .ok (e.DBUser.getD (env.DB_USER.getD "postgres"), e.DBPassword <|> env.DB_PASSWORD))

/-- Document-store analogue of `pg_db_host` (identical code). -/
def docdb_db_host (env : Env) (e : Event) : Option String :=
  e.props.DBHost <|> e.DBHost <|> env.DB_HOST

/-- Document-store port resolution: hardcoded default `27017`. -/
def docdb_db_port (env : Env) (e : Event) : String :=
  e.props.DBPort.getD (e.DBPort.getD (env.DB_PORT.getD "27017"))

/-- Document-store database-name resolution: hardcoded default `librechat`. -/
def docdb_db_name (env : Env) (e : Event) : String :=
  e.props.DBName.getD (e.DBName.getD (env.DB_NAME.getD "librechat"))

/-- Document-store secret-id resolution (identical code). -/
def docdb_secret_id (env : Env) (e : Event) : Option String :=
  e.props.SecretId <|> e.SecretId <|> env.DB_SECRET_ID

/-- Credential resolution of the document-store handler (`init_docdb.handler`
lines 312–318): like `pgCreds` but with default username `docdbadmin`. -/
def docdbCreds (env : Env) (secrets : SecretStore) (e : Event) :
    List Effect × Except PyError (String × Option String) :=
  let sid := docdb_secret_id env e
  if truthy sid then
    let id := sid.getD ""
    match secrets id with
    | none => ([.secretsFetch id], .error ⟨"Exception", "Failed to retrieve secret " ++ id⟩)
    | some sec => ([.secretsFetch id], .ok (sec.username.getD "docdbadmin", sec.password))
  else
    ([], .ok (e.DBUser.getD (env.DB_USER.getD "docdbadmin"), e.DBPassword <|> env.DB_PASSWORD))

/-! ## Handler response envelopes -/

/-- The response dictionary a handler returns (or constructs before
re-raising). `bodyFields` lists the keys of the JSON-encoded `body`;
`DataMessage` is `Data.Message` when `Data` is present. -/
structure Response where
  statusCode : Option Nat
  bodyFields : List String
  PhysicalResourceId : Option String
  DataMessage : Option String
  Reason : Option String
deriving DecidableEq, Repr

/-- Outcome of a handler invocation: a returned response, or an exception
re-raised after a failure response was constructed. -/
inductive HandlerResult where
  | success (r : Response)
  | failure (r : Response) (err : PyError)
deriving DecidableEq, Repr

/-- The early-return envelope of the `Delete`/`Update` lifecycle branch
(both handlers): `{PhysicalResourceId, Data:{Message}}`. -/
def lifecycleResponse (defaultPid : String) (e : Event) : Response :=
  { statusCode := none, bodyFields := [],
    PhysicalResourceId := some (e.PhysicalResourceId.getD defaultPid),
    DataMessage := some (e.RequestType.getD "" ++ " completed successfully"),
    Reason := none }

/-- The envelope returned when an error occurs while `request_type == 'Delete'`
(dead code: `Delete` already returned before the `try` block). -/
def deleteWarningResponse (defaultPid : String) (e : Event) : Response :=
  { statusCode := none, bodyFields := [],
    PhysicalResourceId := some (e.PhysicalResourceId.getD defaultPid),
    DataMessage := some "Delete completed (with warnings)",
    Reason := none }

/-- The success-path response of `init_postgres.handler`:
`{statusCode:200, body:{message, database, extensions}}` plus, when
`event.get('RequestType')` is truthy, `PhysicalResourceId` derived from host
and database name, and `Data:{Message}`. -/
def pgSuccessResponse (env : Env) (e : Event) : Response :=
  { statusCode := some 200
    bodyFields := ["message", "database", "extensions"]
    PhysicalResourceId :=
      if truthy e.RequestType then
        some ("postgres-init-" ++ (pg_db_host env e).getD "" ++ "-" ++ pg_db_name env e)
      else none
    DataMessage :=
      if truthy e.RequestType then some "PostgreSQL initialized successfully" else none
    Reason := none }

/-- The response `init_postgres.handler` constructs before re-raising:
`{statusCode:500, body:{error, error_type}}` plus, when
`event.get('RequestType')` is truthy, `PhysicalResourceId` and
`Reason = f"{type(e).__name__}: {str(e)}"`. -/
def pgFailureResponse (e : Event) (err : PyError) : Response :=
  { statusCode := some 500
    bodyFields := ["error", "error_type"]
    PhysicalResourceId :=
      if truthy e.RequestType then some (e.PhysicalResourceId.getD "postgres-init") else none
    DataMessage := none
    Reason := if truthy e.RequestType then some (err.name ++ ": " ++ err.msg) else none }

/-- The success-path response of `init_docdb.handler`:
`{statusCode:200, body:{message, database, collections}}` plus the
custom-resource fields when `event.get('RequestType')` is truthy. -/
def docdbSuccessResponse (env : Env) (e : Event) : Response :=
  { statusCode := some 200
    bodyFields := ["message", "database", "collections"]
    PhysicalResourceId :=
      if truthy e.RequestType then
        some ("docdb-init-" ++ (docdb_db_host env e).getD "" ++ "-" ++ docdb_db_name env e)
      else none
    DataMessage :=
      if truthy e.RequestType then some "DocumentDB initialized successfully" else none
    Reason := none }

/-- The response `init_docdb.handler` constructs before re-raising:
`{statusCode:500, body:{error}}` — no `error_type` key — plus, when
`event.get('RequestType')` is truthy, `PhysicalResourceId` and
`Reason = str(e)`. -/
def docdbFailureResponse (e : Event) (err : PyError) : Response :=
  { statusCode := some 500
    bodyFields := ["error"]
    PhysicalResourceId :=
      if truthy e.RequestType then some (e.PhysicalResourceId.getD "docdb-init") else none
    DataMessage := none
    Reason := if truthy e.RequestType then some err.msg else none }

/-! ## Relational-store handler (`init_postgres.handler`) -/

/-- The `try` block of `init_postgres.handler` on the Create path: resolve
parameters, check the host, resolve credentials, check the password, poll
via `wait_for_db`, then connect and initialize. Connection attempts and
sleeps of the polling loop are recorded in the trace; the post-polling
connection / database-creation / `init_pgvector` phase is abstracted by
`initOutcome`, with its connection and schema mutations as effects. -/
def pgTryBody (env : Env) (secrets : SecretStore) (att : Nat → PgAttempt)
    (jitter : Nat → ℚ) (initOutcome : Except PyError Unit) (e : Event) :
    List Effect × Except PyError Response :=
  let host := pg_db_host env e
  if ¬ truthy host then ([], .error ⟨"ValueError", "Database host not provided"⟩)
  else
    match pgCreds env secrets e with
    | (tr, .error err) => (tr, .error err)
    | (tr, .ok (_user, pw)) =>
      if ¬ truthy pw then (tr, .error ⟨"ValueError", "Database password not provided"⟩)
      else
        let maxRetries := env.MAX_RETRIES.getD 30
        let retryDelay := env.RETRY_DELAY.getD 5
        let w := pgWait att jitter maxRetries (retryDelay : ℚ)
        let tr2 := tr ++ List.replicate w.attemptsMade .dbConnectAttempt
                      ++ List.replicate w.sleeps.length .sleep
        match w.result with
        | .ok =>
          match initOutcome with
          | .ok _ => (tr2 ++ [.dbConnect, .dbMutation], .ok (pgSuccessResponse env e))
          | .error err => (tr2 ++ [.dbConnect], .error err)
        | .authRaise m => (tr2, .error ⟨"OperationalError", m⟩)
        | .otherRaise n m => (tr2, .error ⟨n, m⟩)
        | .exhausted a _minutes =>
          -- the `~{...:.1f} minutes` clause of the message interpolates
          -- `_minutes`; its decimal rendering is not modeled
          (tr2, .error ⟨"Exception",
            "Database did not become available after " ++ toString a ++ " attempts"⟩)

/-- `init_postgres.handler`. `Delete`/`Update` events return a success
envelope before the `try` block; otherwise the `try` body runs, a raised
error first has a `{statusCode:500, body:{error, error_type}}` response
constructed (plus `PhysicalResourceId`/`Reason` when `event.get('RequestType')`
is truthy) and is then re-raised. -/
def pgHandler (env : Env) (secrets : SecretStore) (att : Nat → PgAttempt)
    (jitter : Nat → ℚ) (initOutcome : Except PyError Unit) (e : Event) :
    List Effect × HandlerResult :=
  let rt := e.RequestType
  if rt = some "Delete" ∨ rt = some "Update" then
    ([], .success (lifecycleResponse "postgres-init" e))
  else
    match pgTryBody env secrets att jitter initOutcome e with
    | (tr, .ok resp) => (tr, .success resp)
    | (tr, .error err) =>
      if rt = some "Delete" then (tr, .success (deleteWarningResponse "postgres-init" e))
      else (tr, .failure (pgFailureResponse e err) err)

/-! ## Document-store handler (`init_docdb.handler`) -/

/-- The `try` block of `init_docdb.handler` on the Create path. Identical
structure to `pgTryBody`, with the extra network-connectivity validation
phase (`validate_network_connectivity`, abstracted by `netOutcome`) between
the password check and the polling loop, and `init_collections` behind
`initOutcome`. -/
def docdbTryBody (env : Env) (secrets : SecretStore) (netOutcome : Except PyError Unit)
    (att : Nat → DocAttempt) (initOutcome : Except PyError Unit) (e : Event) :
    List Effect × Except PyError Response :=
  let host := docdb_db_host env e
  if ¬ truthy host then ([], .error ⟨"ValueError", "Database host not provided"⟩)
  else
    match docdbCreds env secrets e with
    | (tr, .error err) => (tr, .error err)
    | (tr, .ok (_user, pw)) =>
      if ¬ truthy pw then (tr, .error ⟨"ValueError", "Database password not provided"⟩)
      else
        let port := docdb_db_port env e
        let trv := tr ++ [.netValidate (host.getD "") port]
        match netOutcome with
        | .error err => (trv, .error err)
        | .ok _ =>
          let maxRetries := env.MAX_RETRIES.getD 30
          let retryDelay := env.RETRY_DELAY.getD 10
          let w := docdbWait att maxRetries retryDelay
          let tr2 := trv ++ List.replicate w.attemptsMade .dbConnectAttempt
                         ++ List.replicate w.sleeps.length .sleep
          if ¬ w.success then
            (tr2, .error ⟨"Exception", docdbWaitMsg maxRetries retryDelay⟩)
          else
            match initOutcome with
            | .ok _ => (tr2 ++ [.dbConnect, .dbMutation], .ok (docdbSuccessResponse env e))
            | .error err => (tr2 ++ [.dbConnect], .error err)

/-- `init_docdb.handler`. Same lifecycle structure as `pgHandler`; the
failure response body has only an `error` field (no `error_type`), and the
attached `Reason` is `str(e)` without the exception-class prefix. -/
def docdbHandler (env : Env) (secrets : SecretStore) (netOutcome : Except PyError Unit)
    (att : Nat → DocAttempt) (initOutcome : Except PyError Unit) (e : Event) :
    List Effect × HandlerResult :=
  let rt := e.RequestType
  if rt = some "Delete" ∨ rt = some "Update" then
    ([], .success (lifecycleResponse "docdb-init" e))
  else
    match docdbTryBody env secrets netOutcome att initOutcome e with
    | (tr, .ok resp) => (tr, .success resp)
    | (tr, .error err) =>
      if rt = some "Delete" then (tr, .success (deleteWarningResponse "docdb-init" e))
      else (tr, .failure (docdbFailureResponse e err) err)

/-! ## The precedence chain as the spec words it (for refinement claims) -/

/-- The resolution precedence exactly as the spec states it, for comparison
with the resolvers embedded from the code: the value in
`event.ResourceProperties`, else the same-named top-level event field, else
the corresponding environment variable, else the hardcoded default. -/
def specPrecedence (rpv evv envv dflt : Option String) : Option String :=
  rpv <|> evv <|> envv <|> dflt

/-! ## Concrete test inputs -/

/-- Event carrying a `ResourceProperties.DBUser` and a conflicting top-level
`DBUser`, to probe the resolution precedence of the username. -/
def c4Event : Event :=
  { Event.empty with
    ResourceProperties := some { Props.empty with DBUser := some "rp-user" }
    DBUser := some "event-user" }

/-- Event with a declared-but-empty `RequestType`, a host, and no password. -/
def c6Event : Event :=
  { Event.empty with RequestType := some "", DBHost := some "db.example" }

/-- Event with a declared-but-empty `RequestType`, a host, and a password. -/
def c10Event : Event :=
  { Event.empty with
    RequestType := some "", DBHost := some "db.example", DBPassword := some "pw" }

/-- A `Delete` lifecycle event carrying a prior physical-resource-id. -/
def c3Event : Event :=
  { Event.empty with RequestType := some "Delete", PhysicalResourceId := some "pid-123" }

/-- A `Create` event with a host, a prior physical-resource-id and no password. -/
def createFailEvent : Event :=
  { Event.empty with
    RequestType := some "Create", DBHost := some "db.example",
    PhysicalResourceId := some "prev-id" }

/-- An event with an unrecognized (non-lifecycle) `RequestType`. -/
def weirdRequestEvent : Event :=
  { Event.empty with
    RequestType := some "Recreate", DBHost := some "db.example",
    DBPassword := some "pw", PhysicalResourceId := some "prev-id" }

/-- The configuration error raised when no password resolves. -/
def passwordMissingErr : PyError := ⟨"ValueError", "Database password not provided"⟩

/-! ## Helper lemmas about the polling loops -/

theorem docdbWaitGo_success (att : Nat → DocAttempt) (remaining i d : Nat)
    (h : att i = .success) :
    docdbWaitGo att (remaining + 1) i d = ⟨true, i + 1, []⟩ := by
  simp [docdbWaitGo, h]

theorem docdbWaitGo_fail_more (att : Nat → DocAttempt) (remaining i d : Nat)
    (h : att i ≠ .success) (hr : 0 < remaining) :
    docdbWaitGo att (remaining + 1) i d =
      ⟨(docdbWaitGo att remaining (i + 1) (min (d * 2) 60)).success,
       (docdbWaitGo att remaining (i + 1) (min (d * 2) 60)).attemptsMade,
       d :: (docdbWaitGo att remaining (i + 1) (min (d * 2) 60)).sleeps⟩ := by
  cases hA : att i <;> simp_all [docdbWaitGo]

theorem docdbWaitGo_fail_last (att : Nat → DocAttempt) (i d : Nat)
    (h : att i ≠ .success) :
    docdbWaitGo att 1 i d = ⟨false, i + 1, []⟩ := by
  cases hA : att i <;> simp_all [docdbWaitGo]

theorem docdbWaitGo_all_fail (att : Nat → DocAttempt) :
    ∀ remaining i d, (∀ j, i ≤ j → j < i + remaining → att j ≠ .success) →
      (docdbWaitGo att remaining i d).success = false ∧
      (docdbWaitGo att remaining i d).attemptsMade = i + remaining := by
  intro remaining
  induction remaining with
  | zero => intro i d _; simp [docdbWaitGo]
  | succ n ih =>
    intro i d h
    have hi : att i ≠ .success := h i le_rfl (by omega)
    rcases Nat.eq_zero_or_pos n with hn | hn
    · subst hn
      rw [docdbWaitGo_fail_last att i d hi]
      exact ⟨rfl, rfl⟩
    · rw [docdbWaitGo_fail_more att n i d hi hn]
      have := ih (i + 1) (min (d * 2) 60) (fun j h1 h2 => h j (by omega) (by omega))
      exact ⟨this.1, by simpa [Nat.add_assoc, Nat.add_comm 1 n] using this.2⟩

theorem pgWaitGo_success (att : Nat → PgAttempt) (jitter : Nat → ℚ) (rd : ℚ)
    (remaining i : Nat) (h : att i = .success) :
    pgWaitGo att jitter rd (remaining + 1) i = ⟨.ok, i + 1, []⟩ := by
  simp [pgWaitGo, h]

theorem pgWaitGo_auth (att : Nat → PgAttempt) (jitter : Nat → ℚ) (rd : ℚ)
    (remaining i : Nat) (msg : String) (h : att i = .opError msg)
    (hnc : containsSub msg "could not connect to server" = false)
    (ha : containsSub msg "password authentication failed" = true) :
    pgWaitGo att jitter rd (remaining + 1) i = ⟨.authRaise msg, i + 1, []⟩ := by
  simp [pgWaitGo, h, hnc, ha]

theorem pgWaitGo_opError_more (att : Nat → PgAttempt) (jitter : Nat → ℚ) (rd : ℚ)
    (remaining i : Nat) (msg : String) (h : att i = .opError msg)
    (ha : (!containsSub msg "could not connect to server" &&
           containsSub msg "password authentication failed") = false)
    (hr : 0 < remaining) :
    pgWaitGo att jitter rd (remaining + 1) i =
      ⟨(pgWaitGo att jitter rd remaining (i + 1)).result,
       (pgWaitGo att jitter rd remaining (i + 1)).attemptsMade,
       pgDelay rd i (jitter i) :: (pgWaitGo att jitter rd remaining (i + 1)).sleeps⟩ := by
  simp [pgWaitGo, h, ha, hr]

theorem pgWaitGo_opError_last (att : Nat → PgAttempt) (jitter : Nat → ℚ) (rd : ℚ)
    (i : Nat) (msg : String) (h : att i = .opError msg)
    (ha : (!containsSub msg "could not connect to server" &&
           containsSub msg "password authentication failed") = false) :
    pgWaitGo att jitter rd 1 i = ⟨.exhausted (i + 1) ((i + 1 : Nat) * rd / 60), i + 1, []⟩ := by
  simp [pgWaitGo, h, ha]

theorem pgWaitGo_otherError_more (att : Nat → PgAttempt) (jitter : Nat → ℚ) (rd : ℚ)
    (remaining i : Nat) (n m : String) (h : att i = .otherError n m)
    (hr : 0 < remaining) :
    pgWaitGo att jitter rd (remaining + 1) i =
      ⟨(pgWaitGo att jitter rd remaining (i + 1)).result,
       (pgWaitGo att jitter rd remaining (i + 1)).attemptsMade,
       rd :: (pgWaitGo att jitter rd remaining (i + 1)).sleeps⟩ := by
  simp [pgWaitGo, h, hr]

theorem pgWaitGo_otherError_last (att : Nat → PgAttempt) (jitter : Nat → ℚ) (rd : ℚ)
    (i : Nat) (n m : String) (h : att i = .otherError n m) :
    pgWaitGo att jitter rd 1 i = ⟨.otherRaise n m, i + 1, []⟩ := by
  simp [pgWaitGo, h]

theorem pgWaitGo_opError_all_fail (att : Nat → PgAttempt) (jitter : Nat → ℚ)
    (rd : ℚ) (msgs : Nat → String) :
    ∀ remaining i,
      (∀ j, i ≤ j → j < i + remaining → att j = .opError (msgs j) ∧
        (!containsSub (msgs j) "could not connect to server" &&
         containsSub (msgs j) "password authentication failed") = false) →
      (pgWaitGo att jitter rd remaining i).result =
        .exhausted (i + remaining) ((i + remaining : Nat) * rd / 60) ∧
      (pgWaitGo att jitter rd remaining i).attemptsMade = i + remaining := by
  intro remaining
  induction remaining with
  | zero => intro i _; simp [pgWaitGo]
  | succ n ih =>
    intro i h
    obtain ⟨hA, hc⟩ := h i le_rfl (by omega)
    rcases Nat.eq_zero_or_pos n with hn | hn
    · subst hn
      rw [pgWaitGo_opError_last att jitter rd i (msgs i) hA hc]
      exact ⟨rfl, rfl⟩
    · rw [pgWaitGo_opError_more att jitter rd n i (msgs i) hA hc hn]
      have hrec := ih (i + 1) (fun j h1 h2 => h j (by omega) (by omega))
      have harith : i + 1 + n = i + (n + 1) := by omega
      rw [harith] at hrec
      exact ⟨hrec.1, hrec.2⟩

theorem pgWaitGo_otherError_all_fail (att : Nat → PgAttempt) (jitter : Nat → ℚ)
    (rd : ℚ) (names msgs : Nat → String) :
    ∀ remaining i, 0 < remaining →
      (∀ j, i ≤ j → j < i + remaining → att j = .otherError (names j) (msgs j)) →
      (pgWaitGo att jitter rd remaining i).result =
        .otherRaise (names (i + remaining - 1)) (msgs (i + remaining - 1)) ∧
      (pgWaitGo att jitter rd remaining i).attemptsMade = i + remaining := by
  intro remaining
  induction remaining with
  | zero => intro i h0 _; exact absurd h0 (by omega)
  | succ n ih =>
    intro i _ h
    have hA : att i = .otherError (names i) (msgs i) := h i le_rfl (by omega)
    rcases Nat.eq_zero_or_pos n with hn | hn
    · subst hn
      rw [pgWaitGo_otherError_last att jitter rd i (names i) (msgs i) hA]
      exact ⟨by simp, rfl⟩
    · rw [pgWaitGo_otherError_more att jitter rd n i (names i) (msgs i) hA hn]
      have hrec := ih (i + 1) hn (fun j h1 h2 => h j (by omega) (by omega))
      have harith : i + 1 + n = i + (n + 1) := by omega
      rw [harith] at hrec
      exact ⟨hrec.1, hrec.2⟩

/-! ## Helper lemmas about credential resolution and the handlers -/

theorem pgCreds_fst_effects (env : Env) (secrets : SecretStore) (e : Event) :
    (pgCreds env secrets e).1 = [] ∨
    ∃ id, (pgCreds env secrets e).1 = [.secretsFetch id] := by
  simp only [pgCreds]
  split
  · split <;> exact Or.inr ⟨_, rfl⟩
  · exact Or.inl rfl

theorem docdbCreds_fst_effects (env : Env) (secrets : SecretStore) (e : Event) :
    (docdbCreds env secrets e).1 = [] ∨
    ∃ id, (docdbCreds env secrets e).1 = [.secretsFetch id] := by
  simp only [docdbCreds]
  split
  · split <;> exact Or.inr ⟨_, rfl⟩
  · exact Or.inl rfl

theorem pgTryBody_password_missing (env : Env) (secrets : SecretStore)
    (att : Nat → PgAttempt) (jitter : Nat → ℚ) (initO : Except PyError Unit) (e : Event)
    (u : String) (pw : Option String)
    (hhost : truthy (pg_db_host env e) = true)
    (hc : (pgCreds env secrets e).2 = .ok (u, pw))
    (hpw : truthy pw = false) :
    pgTryBody env secrets att jitter initO e =
      ((pgCreds env secrets e).1, .error ⟨"ValueError", "Database password not provided"⟩) := by
  rcases hE : pgCreds env secrets e with ⟨trc, res⟩
  rw [hE] at hc
  simp only at hc
  subst hc
  simp only [pgTryBody, hE, hhost, hpw]
  simp

theorem docdbTryBody_password_missing (env : Env) (secrets : SecretStore)
    (net : Except PyError Unit) (att : Nat → DocAttempt) (initO : Except PyError Unit)
    (e : Event) (u : String) (pw : Option String)
    (hhost : truthy (docdb_db_host env e) = true)
    (hc : (docdbCreds env secrets e).2 = .ok (u, pw))
    (hpw : truthy pw = false) :
    docdbTryBody env secrets net att initO e =
      ((docdbCreds env secrets e).1, .error ⟨"ValueError", "Database password not provided"⟩) := by
  rcases hE : docdbCreds env secrets e with ⟨trc, res⟩
  rw [hE] at hc
  simp only at hc
  subst hc
  simp only [docdbTryBody, hE, hhost, hpw]
  simp

theorem pgHandler_create_dispatch (env : Env) (secrets : SecretStore)
    (att : Nat → PgAttempt) (jitter : Nat → ℚ) (initO : Except PyError Unit) (e : Event)
    (hrt : ¬(e.RequestType = some "Delete" ∨ e.RequestType = some "Update")) :
    pgHandler env secrets att jitter initO e =
      (match pgTryBody env secrets att jitter initO e with
       | (tr, .ok resp) => (tr, .success resp)
       | (tr, .error err) => (tr, .failure (pgFailureResponse e err) err)) := by
  have hnd : ¬ e.RequestType = some "Delete" := fun hh => hrt (Or.inl hh)
  simp only [pgHandler, if_neg hrt]
  rcases hb : pgTryBody env secrets att jitter initO e with ⟨tr, res⟩
  cases res <;> simp [hnd]

theorem docdbHandler_create_dispatch (env : Env) (secrets : SecretStore)
    (net : Except PyError Unit) (att : Nat → DocAttempt) (initO : Except PyError Unit)
    (e : Event)
    (hrt : ¬(e.RequestType = some "Delete" ∨ e.RequestType = some "Update")) :
    docdbHandler env secrets net att initO e =
      (match docdbTryBody env secrets net att initO e with
       | (tr, .ok resp) => (tr, .success resp)
       | (tr, .error err) => (tr, .failure (docdbFailureResponse e err) err)) := by
  have hnd : ¬ e.RequestType = some "Delete" := fun hh => hrt (Or.inl hh)
  simp only [docdbHandler, if_neg hrt]
  rcases hb : docdbTryBody env secrets net att initO e with ⟨tr, res⟩
  cases res <;> simp [hnd]

theorem pgHandler_failure_inv (env : Env) (secrets : SecretStore)
    (att : Nat → PgAttempt) (jitter : Nat → ℚ) (initO : Except PyError Unit) (e : Event)
    (tr : List Effect) (r : Response) (err : PyError)
    (h : pgHandler env secrets att jitter initO e = (tr, .failure r err)) :
    r = pgFailureResponse e err := by
  simp only [pgHandler] at h
  split at h
  · simp at h
  · split at h
    · simp at h
    · split at h
      · simp at h
      · simp only [Prod.mk.injEq, HandlerResult.failure.injEq] at h
        obtain ⟨-, h2, rfl⟩ := h
        exact h2.symm

theorem docdbHandler_failure_inv (env : Env) (secrets : SecretStore)
    (net : Except PyError Unit) (att : Nat → DocAttempt) (initO : Except PyError Unit)
    (e : Event) (tr : List Effect) (r : Response) (err : PyError)
    (h : docdbHandler env secrets net att initO e = (tr, .failure r err)) :
    r = docdbFailureResponse e err := by
  simp only [docdbHandler] at h
  split at h
  · simp at h
  · split at h
    · simp at h
    · split at h
      · simp at h
      · simp only [Prod.mk.injEq, HandlerResult.failure.injEq] at h
        obtain ⟨-, h2, rfl⟩ := h
        exact h2.symm

theorem pgTryBody_ok_inv (env : Env) (secrets : SecretStore)
    (att : Nat → PgAttempt) (jitter : Nat → ℚ) (initO : Except PyError Unit) (e : Event)
    (tr : List Effect) (resp : Response)
    (h : pgTryBody env secrets att jitter initO e = (tr, .ok resp)) :
    resp = pgSuccessResponse env e := by
  simp only [pgTryBody] at h
  repeat' split at h
  all_goals simp_all

theorem docdbTryBody_ok_inv (env : Env) (secrets : SecretStore)
    (net : Except PyError Unit) (att : Nat → DocAttempt) (initO : Except PyError Unit)
    (e : Event) (tr : List Effect) (resp : Response)
    (h : docdbTryBody env secrets net att initO e = (tr, .ok resp)) :
    resp = docdbSuccessResponse env e := by
  simp only [docdbTryBody] at h
  repeat' split at h
  all_goals simp_all

theorem orElse_spec (a b c : Option String) :
    (a <|> b <|> c) = specPrecedence a b c none := by
  cases a <;> cases b <;> cases c <;> rfl

theorem getD_spec (a b c : Option String) (d : String) :
    some (a.getD (b.getD (c.getD d))) = specPrecedence a b c (some d) := by
  cases a <;> cases b <;> cases c <;> rfl

theorem specPrecedence_user (b c : Option String) (d : String) :
    (specPrecedence none b c (some d)).getD "" = b.getD (c.getD d) := by
  cases b <;> cases c <;> rfl

theorem specPrecedence_pw (b c : Option String) :
    specPrecedence none b c none = (b <|> c) := by
  cases b <;> cases c <;> rfl

/-! ## The claims -/

/-- C1: schema initialization is claimed idempotent for both stores. The
document-store `init_collections` is (a second run equals the first and
raises nothing), but the relational `init_pgvector` is not: a first run from
a fresh database succeeds, and a second run against the resulting state
raises (its `CREATE TRIGGER` statement has no `IF NOT EXISTS`/`OR REPLACE`
form) and rolls the transaction back. -/
theorem c1_init_pgvector_second_run_fails :
    (∃ s, init_pgvector PgSchema.empty = .ok s ∧ ∃ err, init_pgvector s = .error err) ∧
    init_collections (init_collections DocDbState.empty) = init_collections DocDbState.empty :=
  ⟨⟨⟨["vector"], ["embeddings"],
     ["idx_embeddings_document_id", "idx_embeddings_embedding"],
     ["update_updated_at_column"], ["update_embeddings_updated_at"]⟩,
    by set_option maxRecDepth 8192 in rfl,
    ⟨"DuplicateObject",
     "trigger \x22update_embeddings_updated_at\x22 for relation \x22embeddings\x22 already exists"⟩,
    by set_option maxRecDepth 8192 in rfl⟩,
   by set_option maxRecDepth 8192 in decide⟩

/-- C2 counterexample: in the document-store `wait_for_db`, an
authentication failure on the first attempt (an `OperationFailure`, caught
by the generic `except Exception` clause) is retried: with 2 retries and a
10s base delay the loop makes 2 attempts and sleeps once, contradicting the
claim that either handler raises immediately with no further attempts and no
sleep. -/
theorem c2_counterexample_docdb_auth_retried :
    (docdbWait (fun _ => .authFailure) 2 10).attemptsMade = 2 ∧
    (docdbWait (fun _ => .authFailure) 2 10).sleeps = [10] :=
  ⟨rfl, rfl⟩

/-- C2 (amended): only the relational `wait_for_db` raises an
authentication-classified error immediately, and only when the failing
message contains `password authentication failed` without `could not
connect to server` (the connect-failure check comes first in the `if/elif`
chain): such a first-attempt failure ends the loop after exactly 1 attempt
with no sleep. A message containing both substrings is slept on and retried
like a transient failure. The document-store loop has no authentication
special-case at all: persistent authentication failures there consume all
attempts, sleeping between them. -/
theorem c2_pg_auth_immediate_docdb_retries
    (attp : Nat → PgAttempt) (jitter : Nat → ℚ) (mrp : Nat) (rd : ℚ) (msg : String)
    (hmr : 0 < mrp) (h0 : attp 0 = .opError msg)
    (hnc : containsSub msg "could not connect to server" = false)
    (ha : containsSub msg "password authentication failed" = true)
    (attd : Nat → DocAttempt) (mrd d : Nat) (hmrd : 2 ≤ mrd)
    (hall : ∀ i, attd i = .authFailure)
    (attp2 : Nat → PgAttempt) (mrp2 : Nat) (msg2 : String) (hmr2 : 2 ≤ mrp2)
    (h02 : attp2 0 = .opError msg2)
    (hcc2 : containsSub msg2 "could not connect to server" = true) :
    pgWait attp jitter mrp rd = ⟨.authRaise msg, 1, []⟩ ∧
    (docdbWait attd mrd d).attemptsMade = mrd ∧
    (docdbWait attd mrd d).sleeps ≠ [] ∧
    (pgWait attp2 jitter mrp2 rd).sleeps ≠ [] := by
  obtain ⟨k, rfl⟩ : ∃ k, mrp = k + 1 := ⟨mrp - 1, by omega⟩
  refine ⟨pgWaitGo_auth attp jitter rd k 0 msg h0 hnc ha, ?_, ?_, ?_⟩
  · have h2 := (docdbWaitGo_all_fail attd mrd 0 d
      (fun j _ _ => by rw [hall j]; simp)).2
    show (docdbWaitGo attd mrd 0 d).attemptsMade = mrd
    omega
  · obtain ⟨k2, rfl⟩ : ∃ k2, mrd = k2 + 2 := ⟨mrd - 2, by omega⟩
    have h0d : attd 0 ≠ .success := by rw [hall 0]; simp
    show (docdbWaitGo attd (k2 + 2) 0 d).sleeps ≠ []
    rw [show k2 + 2 = (k2 + 1) + 1 from rfl,
        docdbWaitGo_fail_more attd (k2 + 1) 0 d h0d (by omega)]
    simp
  · obtain ⟨k3, rfl⟩ : ∃ k3, mrp2 = k3 + 2 := ⟨mrp2 - 2, by omega⟩
    have hc2 : (!containsSub msg2 "could not connect to server" &&
        containsSub msg2 "password authentication failed") = false := by
      rw [hcc2]; simp
    show (pgWaitGo attp2 jitter rd (k3 + 2) 0).sleeps ≠ []
    rw [show k3 + 2 = (k3 + 1) + 1 from rfl,
        pgWaitGo_opError_more attp2 jitter rd (k3 + 1) 0 msg2 h02 hc2 (by omega)]
    simp

/-- C2 witness: concrete runs exercising every conjunct of the amended
claim, including a message carrying both substrings being retried. -/
theorem c2_pg_auth_immediate_docdb_retries_witness :
    pgWait (fun _ => .opError "FATAL: password authentication failed for user")
        (fun _ => 0) 30 5 =
      ⟨.authRaise "FATAL: password authentication failed for user", 1, []⟩ ∧
    (docdbWait (fun _ => .authFailure) 30 10).attemptsMade = 30 ∧
    (docdbWait (fun _ => .authFailure) 30 10).sleeps ≠ [] ∧
    (pgWait
      (fun _ => .opError
        "could not connect to server; FATAL: password authentication failed for user")
      (fun _ => 0) 30 5).sleeps ≠ [] :=
  c2_pg_auth_immediate_docdb_retries _ _ 30 5 _ (by omega) rfl (by decide) (by decide)
    _ 30 10 (by omega) (fun _ => rfl)
    _ 30 _ (by omega) rfl (by decide)

/-- C7 counterexample: with 4 retries and a 10s base delay and every attempt
failing, the document-store loop actually sleeps 10+20+40 = 70 seconds, but
the raised message states the nominal `max_retries * retry_delay` = 40
seconds — not the time actually spent sleeping. -/
theorem c7_counterexample_docdb_nominal_vs_actual :
    (docdbWait (fun _ => .serverTimeout) 4 10).success = false ∧
    (docdbWait (fun _ => .serverTimeout) 4 10).sleeps.sum = 70 ∧
    docdbWaitMsg 4 10 = "DocumentDB did not become available after 40 seconds (4 attempts)" ∧
    (docdbWait (fun _ => .serverTimeout) 4 10).sleeps.sum ≠ 4 * 10 := by
  refine ⟨rfl, rfl, rfl, by decide⟩

/-- C7 (amended): exhausting all attempts raises a fatal error that states
the attempt count actually made (`max_retries`) and a *nominal* wait figure
computed as `max_retries * retry_delay` from the initial delay — not the
time actually spent sleeping. The document-store message reports it as
seconds; the relational message reports `max_retries * retry_delay / 60`
minutes (carried, with the attempt count, in `PgWaitResult.exhausted`), and
only when the final failure is a retryable `OperationalError`: when the
attempts fail with generic exceptions the last attempt re-raises the
original error and no attempts/wait message is produced at all. -/
theorem c7_exhaustion_reports_nominal_wait_and_attempts
    (att : Nat → DocAttempt) (mr rd : Nat)
    (hfail : ∀ i, i < mr → att i ≠ .success)
    (attp : Nat → PgAttempt) (jitter : Nat → ℚ) (mrp : Nat) (rdp : ℚ)
    (msgs : Nat → String)
    (hallp : ∀ j, j < mrp → attp j = .opError (msgs j) ∧
      (!containsSub (msgs j) "could not connect to server" &&
       containsSub (msgs j) "password authentication failed") = false)
    (attg : Nat → PgAttempt) (mrg : Nat) (names msgsg : Nat → String)
    (hmrg : 0 < mrg)
    (hallg : ∀ j, j < mrg → attg j = .otherError (names j) (msgsg j)) :
    docdbWaitOutcome att mr rd = .error ⟨"Exception", docdbWaitMsg mr rd⟩ ∧
    (docdbWait att mr rd).attemptsMade = mr ∧
    docdbWaitMsg mr rd =
      s!"DocumentDB did not become available after {mr * rd} seconds ({mr} attempts)" ∧
    (pgWait attp jitter mrp rdp).result = .exhausted mrp ((mrp : Nat) * rdp / 60) ∧
    (pgWait attp jitter mrp rdp).attemptsMade = mrp ∧
    (pgWait attg jitter mrg rdp).result =
      .otherRaise (names (mrg - 1)) (msgsg (mrg - 1)) ∧
    (pgWait attg jitter mrg rdp).attemptsMade = mrg := by
  have h := docdbWaitGo_all_fail att mr 0 rd (fun j _ h2 => hfail j (by omega))
  have hp := pgWaitGo_opError_all_fail attp jitter rdp msgs mrp 0
    (fun j _ h2 => hallp j (by omega))
  have hg := pgWaitGo_otherError_all_fail attg jitter rdp names msgsg mrg 0
    (by omega) (fun j _ h2 => hallg j (by omega))
  simp only [Nat.zero_add] at hp hg
  refine ⟨?_, ?_, rfl, hp.1, hp.2, hg.1, hg.2⟩
  · simp only [docdbWaitOutcome, docdbWait, h.1]
    simp
  · show (docdbWaitGo att mr 0 rd).attemptsMade = mr
    omega

/-- C7 witness: the amended claim at concrete all-failing runs of all three
shapes (document store; relational retryable OperationalErrors; relational
generic exceptions). -/
theorem c7_exhaustion_reports_nominal_wait_and_attempts_witness :
    docdbWaitOutcome (fun _ => .serverTimeout) 4 10 =
      .error ⟨"Exception", docdbWaitMsg 4 10⟩ ∧
    (docdbWait (fun _ => .serverTimeout) 4 10).attemptsMade = 4 ∧
    docdbWaitMsg 4 10 =
      s!"DocumentDB did not become available after {4 * 10} seconds ({4} attempts)" ∧
    (pgWait (fun _ => .opError "could not connect to server") (fun _ => 0) 3 5).result =
      .exhausted 3 ((3 : Nat) * 5 / 60) ∧
    (pgWait (fun _ => .opError "could not connect to server") (fun _ => 0) 3 5).attemptsMade
      = 3 ∧
    (pgWait (fun _ => .otherError "TypeError" "boom") (fun _ => 0) 2 5).result =
      .otherRaise ((fun _ : Nat => "TypeError") (2 - 1)) ((fun _ : Nat => "boom") (2 - 1)) ∧
    (pgWait (fun _ => .otherError "TypeError" "boom") (fun _ => 0) 2 5).attemptsMade = 2 :=
  c7_exhaustion_reports_nominal_wait_and_attempts _ 4 10 (fun _ _ => by simp)
    _ _ 3 5 (fun _ => "could not connect to server")
    (fun _ _ => ⟨rfl, by
      show (!containsSub "could not connect to server" "could not connect to server" &&
        containsSub "could not connect to server" "password authentication failed") = false
      decide⟩)
    _ 2 (fun _ => "TypeError") (fun _ => "boom") (by omega) (fun _ _ => rfl)

/-- C8: with transient failures on attempts 1 and 2 and success on attempt
3, both polling loops return success after exactly 3 attempts, having slept
exactly twice, and the total sleep equals the sum of the first two computed
delays — for the document store `d + min (d*2) 60` (base delay, then base
delay doubled capped at 60s), for the relational store the two
backoff-plus-jitter delays. -/
theorem c8_transient_then_success (attd : Nat → DocAttempt) (mrd d : Nat)
    (attp : Nat → PgAttempt) (jitter : Nat → ℚ) (mrp : Nat) (rd : ℚ) (m0 m1 : String)
    (hmrd : 3 ≤ mrd) (hd0 : attd 0 = .serverTimeout) (hd1 : attd 1 = .serverTimeout)
    (hd2 : attd 2 = .success)
    (hmrp : 3 ≤ mrp) (hp0 : attp 0 = .opError m0)
    (hna0 : containsSub m0 "password authentication failed" = false)
    (hp1 : attp 1 = .opError m1)
    (hna1 : containsSub m1 "password authentication failed" = false)
    (hp2 : attp 2 = .success) :
    docdbWait attd mrd d = ⟨true, 3, [d, min (d * 2) 60]⟩ ∧
    (docdbWait attd mrd d).sleeps.sum = d + min (d * 2) 60 ∧
    pgWait attp jitter mrp rd = ⟨.ok, 3, [pgDelay rd 0 (jitter 0), pgDelay rd 1 (jitter 1)]⟩ ∧
    (pgWait attp jitter mrp rd).sleeps.sum =
      pgDelay rd 0 (jitter 0) + pgDelay rd 1 (jitter 1) := by
  obtain ⟨k, rfl⟩ : ∃ k, mrd = k + 3 := ⟨mrd - 3, by omega⟩
  obtain ⟨k2, rfl⟩ : ∃ k2, mrp = k2 + 3 := ⟨mrp - 3, by omega⟩
  have hd0n : attd 0 ≠ .success := by rw [hd0]; simp
  have hd1n : attd 1 ≠ .success := by rw [hd1]; simp
  have hdoc : docdbWait attd (k + 3) d = ⟨true, 3, [d, min (d * 2) 60]⟩ := by
    show docdbWaitGo attd (k + 3) 0 d = _
    rw [show k + 3 = (k + 2) + 1 from rfl,
        docdbWaitGo_fail_more attd (k + 2) 0 d hd0n (by omega),
        show k + 2 = (k + 1) + 1 from rfl,
        docdbWaitGo_fail_more attd (k + 1) 1 (min (d * 2) 60) hd1n (by omega),
        docdbWaitGo_success attd k 2 _ hd2]
  have hb0 : (!containsSub m0 "could not connect to server" &&
      containsSub m0 "password authentication failed") = false := by
    rw [hna0]; simp
  have hb1 : (!containsSub m1 "could not connect to server" &&
      containsSub m1 "password authentication failed") = false := by
    rw [hna1]; simp
  have hpg : pgWait attp jitter (k2 + 3) rd =
      ⟨.ok, 3, [pgDelay rd 0 (jitter 0), pgDelay rd 1 (jitter 1)]⟩ := by
    show pgWaitGo attp jitter rd (k2 + 3) 0 = _
    rw [show k2 + 3 = (k2 + 2) + 1 from rfl,
        pgWaitGo_opError_more attp jitter rd (k2 + 2) 0 m0 hp0 hb0 (by omega),
        show k2 + 2 = (k2 + 1) + 1 from rfl,
        pgWaitGo_opError_more attp jitter rd (k2 + 1) 1 m1 hp1 hb1 (by omega),
        pgWaitGo_success attp jitter rd k2 2 hp2]
  exact ⟨hdoc, by rw [hdoc]; simp, hpg, by rw [hpg]; simp⟩

/-- C8 witness: concrete three-attempt recovery in both loops. -/
theorem c8_transient_then_success_witness :
    docdbWait (fun i => if i < 2 then .serverTimeout else .success) 30 10 =
      ⟨true, 3, [10, min (10 * 2) 60]⟩ ∧
    (docdbWait (fun i => if i < 2 then .serverTimeout else .success) 30 10).sleeps.sum =
      10 + min (10 * 2) 60 ∧
    pgWait (fun i => if i < 2 then .opError "could not connect to server" else .success)
        (fun _ => 1 / 2) 30 5 =
      ⟨.ok, 3, [pgDelay 5 0 (1 / 2), pgDelay 5 1 (1 / 2)]⟩ ∧
    (pgWait (fun i => if i < 2 then .opError "could not connect to server" else .success)
        (fun _ => 1 / 2) 30 5).sleeps.sum =
      pgDelay 5 0 (1 / 2) + pgDelay 5 1 (1 / 2) :=
  c8_transient_then_success _ 30 10 _ _ 30 5 _ _ (by omega) rfl rfl rfl
    (by omega) rfl (by decide) rfl (by decide) rfl

/-- C9: `safe_close_connection` never closes anything — its body recurses
into itself where `connection.close()` was intended, the recursion ends only
via the interpreter's recursion limit, and every call returns with the
connection state unchanged: an open connection stays open on every exit
path, contradicting the claimed guarantee. -/
theorem c9_safe_close_connection_is_identity (fuel : Nat) (conn : Option PgConn) :
    safe_close_connection fuel conn = conn := by
  cases conn with
  | none =>
    induction fuel with
    | zero => rfl
    | succ n ih => rfl
  | some c =>
    induction fuel with
    | zero => rfl
    | succ n ih =>
      simp only [safe_close_connection]
      split
      · rfl
      · simp only [safe_close_connection] at ih
        exact ih

/-- C9 witness: an open connection is still open after `safe_close_connection`. -/
theorem c9_witness_open_connection_stays_open :
    safe_close_connection 1000 (some ⟨false⟩) = some ⟨false⟩ :=
  c9_safe_close_connection_is_identity 1000 (some ⟨false⟩)

/-- C3: for every `Delete` or `Update` event both handlers perform no side
effects (empty trace, so no database mutation) and return the success
envelope `{PhysicalResourceId, Data:{Message}}` echoing the supplied
physical-resource-id (or the fixed default when absent); the branch returns
unconditionally, so no internal error can propagate from it. -/
theorem c3_delete_update_success (env : Env) (secrets : SecretStore)
    (attp : Nat → PgAttempt) (jitter : Nat → ℚ) (initp : Except PyError Unit)
    (net : Except PyError Unit) (attd : Nat → DocAttempt) (initd : Except PyError Unit)
    (e : Event) (h : e.RequestType = some "Delete" ∨ e.RequestType = some "Update") :
    pgHandler env secrets attp jitter initp e =
      ([], .success (lifecycleResponse "postgres-init" e)) ∧
    docdbHandler env secrets net attd initd e =
      ([], .success (lifecycleResponse "docdb-init" e)) ∧
    (lifecycleResponse "postgres-init" e).PhysicalResourceId =
      some (e.PhysicalResourceId.getD "postgres-init") ∧
    (lifecycleResponse "docdb-init" e).PhysicalResourceId =
      some (e.PhysicalResourceId.getD "docdb-init") ∧
    (lifecycleResponse "postgres-init" e).DataMessage =
      some (e.RequestType.getD "" ++ " completed successfully") := by
  refine ⟨?_, ?_, rfl, rfl, rfl⟩
  · simp only [pgHandler]; rw [if_pos h]
  · simp only [docdbHandler]; rw [if_pos h]

/-- C3 witness: a concrete `Delete` event through both handlers. -/
theorem c3_delete_update_success_witness :
    pgHandler Env.empty (fun _ => none) (fun _ => .success) (fun _ => 0) (.ok ()) c3Event =
      ([], .success (lifecycleResponse "postgres-init" c3Event)) ∧
    docdbHandler Env.empty (fun _ => none) (.ok ()) (fun _ => .success) (.ok ()) c3Event =
      ([], .success (lifecycleResponse "docdb-init" c3Event)) ∧
    (lifecycleResponse "postgres-init" c3Event).PhysicalResourceId =
      some (c3Event.PhysicalResourceId.getD "postgres-init") ∧
    (lifecycleResponse "docdb-init" c3Event).PhysicalResourceId =
      some (c3Event.PhysicalResourceId.getD "docdb-init") ∧
    (lifecycleResponse "postgres-init" c3Event).DataMessage =
      some (c3Event.RequestType.getD "" ++ " completed successfully") :=
  c3_delete_update_success Env.empty (fun _ => none) (fun _ => .success) (fun _ => 0)
    (.ok ()) (.ok ()) (fun _ => .success) (.ok ()) c3Event (Or.inl rfl)

/-- C4 counterexample: with `ResourceProperties.DBUser = "rp-user"` and a
top-level `DBUser = "event-user"` (and no secret id), both handlers resolve
the username to `event-user`, while the claimed precedence chain would
resolve `rp-user`: `ResourceProperties` is never consulted for `DBUser`. -/
theorem c4_counterexample_dbuser_ignores_resource_props :
    (pgCreds Env.empty (fun _ => none) c4Event).2 = .ok ("event-user", none) ∧
    (docdbCreds Env.empty (fun _ => none) c4Event).2 = .ok ("event-user", none) ∧
    specPrecedence c4Event.props.DBUser c4Event.DBUser Env.empty.DB_USER (some "postgres") =
      some "rp-user" :=
  ⟨rfl, rfl, rfl⟩

/-- C4 (amended): host, port, database name and secret id follow the claimed
precedence (`ResourceProperties`, then same-named top-level event field,
then environment variable, then hardcoded default) in both handlers; but
username and password do not: `ResourceProperties.DBUser` and
`ResourceProperties.DBPassword` are never consulted. When no secret id
resolves, they come from the top-level event field, else the environment
variable, else the default; when a secret id resolves, they come from the
secret's fields. -/
theorem c4_resolution_precedence (env : Env) (e : Event) (secrets : SecretStore) :
    (pg_db_host env e = specPrecedence e.props.DBHost e.DBHost env.DB_HOST none ∧
     some (pg_db_port env e) =
       specPrecedence e.props.DBPort e.DBPort env.DB_PORT (some "5432") ∧
     some (pg_db_name env e) =
       specPrecedence e.props.DBName e.DBName env.DB_NAME (some "librechat") ∧
     pg_secret_id env e =
       specPrecedence e.props.SecretId e.SecretId env.DB_SECRET_ID none) ∧
    (docdb_db_host env e = specPrecedence e.props.DBHost e.DBHost env.DB_HOST none ∧
     some (docdb_db_port env e) =
       specPrecedence e.props.DBPort e.DBPort env.DB_PORT (some "27017") ∧
     some (docdb_db_name env e) =
       specPrecedence e.props.DBName e.DBName env.DB_NAME (some "librechat") ∧
     docdb_secret_id env e =
       specPrecedence e.props.SecretId e.SecretId env.DB_SECRET_ID none) ∧
    (truthy (pg_secret_id env e) = false →
      (pgCreds env secrets e).2 =
        .ok ((specPrecedence none e.DBUser env.DB_USER (some "postgres")).getD "",
             specPrecedence none e.DBPassword env.DB_PASSWORD none) ∧
      (docdbCreds env secrets e).2 =
        .ok ((specPrecedence none e.DBUser env.DB_USER (some "docdbadmin")).getD "",
             specPrecedence none e.DBPassword env.DB_PASSWORD none)) ∧
    (∀ id sec, pg_secret_id env e = some id → id ≠ "" → secrets id = some sec →
      (pgCreds env secrets e).2 = .ok (sec.username.getD "postgres", sec.password) ∧
      (docdbCreds env secrets e).2 = .ok (sec.username.getD "docdbadmin", sec.password)) := by
  refine ⟨⟨orElse_spec _ _ _, getD_spec _ _ _ _, getD_spec _ _ _ _, orElse_spec _ _ _⟩,
          ⟨orElse_spec _ _ _, getD_spec _ _ _ _, getD_spec _ _ _ _, orElse_spec _ _ _⟩,
          ?_, ?_⟩
  · intro h
    have hd : truthy (docdb_secret_id env e) = false := h
    rw [specPrecedence_user, specPrecedence_user, specPrecedence_pw]
    constructor
    · simp [pgCreds, h]
    · simp [docdbCreds, hd]
  · intro id sec hid hne hsec
    have hidd : docdb_secret_id env e = some id := hid
    constructor
    · simp [pgCreds, hid, hsec, truthy, hne]
    · simp [docdbCreds, hidd, hsec, truthy, hne]

/-- C4 witness: the amended credential rule at concrete inputs, both with a
secret id resolving and without one. -/
theorem c4_resolution_precedence_witness :
    ((pgCreds Env.empty (fun _ => none) c4Event).2 =
       .ok ((specPrecedence none c4Event.DBUser Env.empty.DB_USER (some "postgres")).getD "",
            specPrecedence none c4Event.DBPassword Env.empty.DB_PASSWORD none) ∧
     (docdbCreds Env.empty (fun _ => none) c4Event).2 =
       .ok ((specPrecedence none c4Event.DBUser Env.empty.DB_USER (some "docdbadmin")).getD "",
            specPrecedence none c4Event.DBPassword Env.empty.DB_PASSWORD none)) ∧
    ((pgCreds { Env.empty with DB_SECRET_ID := some "sid" }
        (fun _ => some ⟨some "alice", some "s3cret"⟩) Event.empty).2 =
       .ok ((Secret.mk (some "alice") (some "s3cret")).username.getD "postgres",
            (Secret.mk (some "alice") (some "s3cret")).password) ∧
     (docdbCreds { Env.empty with DB_SECRET_ID := some "sid" }
        (fun _ => some ⟨some "alice", some "s3cret"⟩) Event.empty).2 =
       .ok ((Secret.mk (some "alice") (some "s3cret")).username.getD "docdbadmin",
            (Secret.mk (some "alice") (some "s3cret")).password)) :=
  ⟨(c4_resolution_precedence Env.empty c4Event (fun _ => none)).2.2.1 rfl,
   (c4_resolution_precedence { Env.empty with DB_SECRET_ID := some "sid" } Event.empty
      (fun _ => some ⟨some "alice", some "s3cret"⟩)).2.2.2 "sid"
      ⟨some "alice", some "s3cret"⟩ rfl (by decide) rfl⟩

/-- C5: when the resolved password is absent on a Create-path invocation
whose host resolved, both handlers raise the `Database password not
provided` configuration error, and the effect trace up to that point
contains at most the Secrets Manager fetch that resolution itself may
require — no connection attempt, no sleep, no network validation, no
database connection, no schema mutation. -/
theorem c5_missing_password_fails_fast (env : Env) (secrets : SecretStore)
    (attp : Nat → PgAttempt) (jitter : Nat → ℚ) (initp : Except PyError Unit)
    (net : Except PyError Unit) (attd : Nat → DocAttempt) (initd : Except PyError Unit)
    (e : Event) (up ud : String) (pwp pwd : Option String)
    (hrt : ¬(e.RequestType = some "Delete" ∨ e.RequestType = some "Update"))
    (hhp : truthy (pg_db_host env e) = true)
    (hcp : (pgCreds env secrets e).2 = .ok (up, pwp)) (hpp : truthy pwp = false)
    (hhd : truthy (docdb_db_host env e) = true)
    (hcd : (docdbCreds env secrets e).2 = .ok (ud, pwd)) (hpd : truthy pwd = false) :
    pgHandler env secrets attp jitter initp e =
      ((pgCreds env secrets e).1,
       .failure (pgFailureResponse e passwordMissingErr) passwordMissingErr) ∧
    docdbHandler env secrets net attd initd e =
      ((docdbCreds env secrets e).1,
       .failure (docdbFailureResponse e passwordMissingErr) passwordMissingErr) ∧
    (∀ eff ∈ (pgCreds env secrets e).1, ∃ id, eff = .secretsFetch id) ∧
    (∀ eff ∈ (docdbCreds env secrets e).1, ∃ id, eff = .secretsFetch id) := by
  refine ⟨?_, ?_, ?_, ?_⟩
  · rw [pgHandler_create_dispatch env secrets attp jitter initp e hrt,
        pgTryBody_password_missing env secrets attp jitter initp e up pwp hhp hcp hpp]
    rfl
  · rw [docdbHandler_create_dispatch env secrets net attd initd e hrt,
        docdbTryBody_password_missing env secrets net attd initd e ud pwd hhd hcd hpd]
    rfl
  · intro eff hm
    rcases pgCreds_fst_effects env secrets e with h0 | ⟨id, h0⟩ <;> rw [h0] at hm
    · simp at hm
    · simp at hm; exact ⟨id, hm⟩
  · intro eff hm
    rcases docdbCreds_fst_effects env secrets e with h0 | ⟨id, h0⟩ <;> rw [h0] at hm
    · simp at hm
    · simp at hm; exact ⟨id, hm⟩

/-- C5 witness: a concrete password-less `Create`-path event. -/
theorem c5_missing_password_fails_fast_witness :
    pgHandler Env.empty (fun _ => none) (fun _ => .success) (fun _ => 0) (.ok ()) c6Event =
      ((pgCreds Env.empty (fun _ => none) c6Event).1,
       .failure (pgFailureResponse c6Event passwordMissingErr) passwordMissingErr) ∧
    docdbHandler Env.empty (fun _ => none) (.ok ()) (fun _ => .success) (.ok ()) c6Event =
      ((docdbCreds Env.empty (fun _ => none) c6Event).1,
       .failure (docdbFailureResponse c6Event passwordMissingErr) passwordMissingErr) ∧
    (∀ eff ∈ (pgCreds Env.empty (fun _ => none) c6Event).1, ∃ id, eff = .secretsFetch id) ∧
    (∀ eff ∈ (docdbCreds Env.empty (fun _ => none) c6Event).1, ∃ id, eff = .secretsFetch id) :=
  c5_missing_password_fails_fast Env.empty (fun _ => none) (fun _ => .success) (fun _ => 0)
    (.ok ()) (.ok ()) (fun _ => .success) (.ok ()) c6Event "postgres" "docdbadmin" none none
    (by decide) rfl rfl rfl rfl rfl rfl

/-- C6 counterexample: a failing Create-path invocation of the document-store
handler constructs a body whose only field is `error` — there is no
`error_type` — and, although the event declares a `RequestType` (the empty
string), neither `PhysicalResourceId` nor `Reason` is attached. -/
theorem c6_counterexample_docdb_envelope :
    (docdbHandler Env.empty (fun _ => none) (.ok ()) (fun _ => .success) (.ok ()) c6Event).2 =
      .failure (docdbFailureResponse c6Event passwordMissingErr) passwordMissingErr ∧
    (docdbFailureResponse c6Event passwordMissingErr).bodyFields = ["error"] ∧
    "error_type" ∉ (docdbFailureResponse c6Event passwordMissingErr).bodyFields ∧
    c6Event.RequestType = some "" ∧
    (docdbFailureResponse c6Event passwordMissingErr).PhysicalResourceId = none ∧
    (docdbFailureResponse c6Event passwordMissingErr).Reason = none := by
  refine ⟨rfl, rfl, by decide, rfl, rfl, rfl⟩

/-- C6 (amended): every failing Create-path invocation first constructs a
response with `statusCode` 500 whose body contains an `error` field — the
relational handler's body additionally contains `error_type`, the
document-store handler's does not — and, when the event declares a
non-empty `RequestType`, also `PhysicalResourceId` and `Reason`, before
re-raising the error. -/
theorem c6_failure_envelope_fields (env : Env) (secrets : SecretStore)
    (attp : Nat → PgAttempt) (jitter : Nat → ℚ) (initp : Except PyError Unit)
    (net : Except PyError Unit) (attd : Nat → DocAttempt) (initd : Except PyError Unit)
    (e : Event) (trp trd : List Effect) (rp rd : Response) (errp errd : PyError)
    (hp : pgHandler env secrets attp jitter initp e = (trp, .failure rp errp))
    (hd : docdbHandler env secrets net attd initd e = (trd, .failure rd errd)) :
    rp.statusCode = some 500 ∧ "error" ∈ rp.bodyFields ∧ "error_type" ∈ rp.bodyFields ∧
    rd.statusCode = some 500 ∧ "error" ∈ rd.bodyFields ∧ "error_type" ∉ rd.bodyFields ∧
    (truthy e.RequestType = true →
      rp.PhysicalResourceId = some (e.PhysicalResourceId.getD "postgres-init") ∧
      rp.Reason = some (errp.name ++ ": " ++ errp.msg) ∧
      rd.PhysicalResourceId = some (e.PhysicalResourceId.getD "docdb-init") ∧
      rd.Reason = some errd.msg) := by
  obtain rfl := pgHandler_failure_inv env secrets attp jitter initp e trp rp errp hp
  obtain rfl := docdbHandler_failure_inv env secrets net attd initd e trd rd errd hd
  refine ⟨rfl, by simp [pgFailureResponse], by simp [pgFailureResponse],
          rfl, by simp [docdbFailureResponse], by simp [docdbFailureResponse], ?_⟩
  intro ht
  simp [pgFailureResponse, docdbFailureResponse, ht]

/-- C6 witness: both handlers failing on a concrete `Create` event with a
prior physical-resource-id. -/
theorem c6_failure_envelope_fields_witness :
    (pgFailureResponse createFailEvent passwordMissingErr).statusCode = some 500 ∧
    "error" ∈ (pgFailureResponse createFailEvent passwordMissingErr).bodyFields ∧
    "error_type" ∈ (pgFailureResponse createFailEvent passwordMissingErr).bodyFields ∧
    (docdbFailureResponse createFailEvent passwordMissingErr).statusCode = some 500 ∧
    "error" ∈ (docdbFailureResponse createFailEvent passwordMissingErr).bodyFields ∧
    "error_type" ∉ (docdbFailureResponse createFailEvent passwordMissingErr).bodyFields ∧
    (truthy createFailEvent.RequestType = true →
      (pgFailureResponse createFailEvent passwordMissingErr).PhysicalResourceId =
        some (createFailEvent.PhysicalResourceId.getD "postgres-init") ∧
      (pgFailureResponse createFailEvent passwordMissingErr).Reason =
        some (passwordMissingErr.name ++ ": " ++ passwordMissingErr.msg) ∧
      (docdbFailureResponse createFailEvent passwordMissingErr).PhysicalResourceId =
        some (createFailEvent.PhysicalResourceId.getD "docdb-init") ∧
      (docdbFailureResponse createFailEvent passwordMissingErr).Reason =
        some passwordMissingErr.msg) :=
  c6_failure_envelope_fields Env.empty (fun _ => none) (fun _ => .success) (fun _ => 0)
    (.ok ()) (.ok ()) (fun _ => .success) (.ok ()) createFailEvent [] []
    (pgFailureResponse createFailEvent passwordMissingErr)
    (docdbFailureResponse createFailEvent passwordMissingErr)
    passwordMissingErr passwordMissingErr rfl rfl

/-- C10 counterexample: `RequestType = ""` is present and is none of
`Create`/`Update`/`Delete`, so the handler takes the full Create path — but
`event.get('RequestType')` is falsy, so the success response carries neither
`PhysicalResourceId` nor `Data`, contradicting the claim's "because
RequestType is truthy" clause. -/
theorem c10_counterexample_empty_request_type :
    c10Event.RequestType = some "" ∧
    (some "" ≠ some "Create" ∧ some "" ≠ some "Update" ∧ some "" ≠ some "Delete") ∧
    (pgHandler Env.empty (fun _ => none) (fun _ => .success) (fun _ => 0) (.ok ())
        c10Event).2 =
      .success (pgSuccessResponse Env.empty c10Event) ∧
    (pgSuccessResponse Env.empty c10Event).PhysicalResourceId = none ∧
    (pgSuccessResponse Env.empty c10Event).DataMessage = none := by
  refine ⟨rfl, by decide, rfl, rfl, rfl⟩

/-- C10 (amended): for an event whose `RequestType` is present, non-empty
and none of `Create`/`Update`/`Delete`, both handlers take the full
Create-path dispatch (resolution, polling, initialization); the success
envelope then carries the derived `PhysicalResourceId` and the `Data`
message, and the failure path re-raises after attaching `PhysicalResourceId`
and `Reason`. -/
theorem c10_unrecognized_request_type (env : Env) (secrets : SecretStore)
    (attp : Nat → PgAttempt) (jitter : Nat → ℚ) (initp : Except PyError Unit)
    (net : Except PyError Unit) (attd : Nat → DocAttempt) (initd : Except PyError Unit)
    (e : Event) (rt : String) (hrt : e.RequestType = some rt) (h0 : rt ≠ "")
    (_h1 : rt ≠ "Create") (h2 : rt ≠ "Update") (h3 : rt ≠ "Delete") :
    pgHandler env secrets attp jitter initp e =
      (match pgTryBody env secrets attp jitter initp e with
       | (tr, .ok resp) => (tr, .success resp)
       | (tr, .error err) => (tr, .failure (pgFailureResponse e err) err)) ∧
    docdbHandler env secrets net attd initd e =
      (match docdbTryBody env secrets net attd initd e with
       | (tr, .ok resp) => (tr, .success resp)
       | (tr, .error err) => (tr, .failure (docdbFailureResponse e err) err)) ∧
    (pgSuccessResponse env e).PhysicalResourceId =
      some ("postgres-init-" ++ (pg_db_host env e).getD "" ++ "-" ++ pg_db_name env e) ∧
    (pgSuccessResponse env e).DataMessage = some "PostgreSQL initialized successfully" ∧
    (docdbSuccessResponse env e).PhysicalResourceId =
      some ("docdb-init-" ++ (docdb_db_host env e).getD "" ++ "-" ++ docdb_db_name env e) ∧
    (docdbSuccessResponse env e).DataMessage = some "DocumentDB initialized successfully" ∧
    (∀ tr resp, pgTryBody env secrets attp jitter initp e = (tr, .ok resp) →
      resp = pgSuccessResponse env e) ∧
    (∀ tr resp, docdbTryBody env secrets net attd initd e = (tr, .ok resp) →
      resp = docdbSuccessResponse env e) ∧
    (∀ err, (pgFailureResponse e err).PhysicalResourceId =
        some (e.PhysicalResourceId.getD "postgres-init") ∧
      (pgFailureResponse e err).Reason = some (err.name ++ ": " ++ err.msg)) ∧
    (∀ err, (docdbFailureResponse e err).PhysicalResourceId =
        some (e.PhysicalResourceId.getD "docdb-init") ∧
      (docdbFailureResponse e err).Reason = some err.msg) := by
  have hne : ¬(e.RequestType = some "Delete" ∨ e.RequestType = some "Update") := by
    rw [hrt]; rintro (h | h) <;> simp_all
  have ht : truthy e.RequestType = true := by rw [hrt]; simp [truthy, h0]
  refine ⟨pgHandler_create_dispatch env secrets attp jitter initp e hne,
          docdbHandler_create_dispatch env secrets net attd initd e hne,
          by simp [pgSuccessResponse, ht], by simp [pgSuccessResponse, ht],
          by simp [docdbSuccessResponse, ht], by simp [docdbSuccessResponse, ht],
          fun tr resp hh => pgTryBody_ok_inv env secrets attp jitter initp e tr resp hh,
          fun tr resp hh => docdbTryBody_ok_inv env secrets net attd initd e tr resp hh,
          fun err => by simp [pgFailureResponse, ht],
          fun err => by simp [docdbFailureResponse, ht]⟩

/-- C10 witness: a concrete event with `RequestType = "Recreate"`. -/
theorem c10_unrecognized_request_type_witness :
    pgHandler Env.empty (fun _ => none) (fun _ => .success) (fun _ => 0) (.ok ())
        weirdRequestEvent =
      (match pgTryBody Env.empty (fun _ => none) (fun _ => .success) (fun _ => 0) (.ok ())
          weirdRequestEvent with
       | (tr, .ok resp) => (tr, .success resp)
       | (tr, .error err) => (tr, .failure (pgFailureResponse weirdRequestEvent err) err)) ∧
    docdbHandler Env.empty (fun _ => none) (.ok ()) (fun _ => .success) (.ok ())
        weirdRequestEvent =
      (match docdbTryBody Env.empty (fun _ => none) (.ok ()) (fun _ => .success) (.ok ())
          weirdRequestEvent with
       | (tr, .ok resp) => (tr, .success resp)
       | (tr, .error err) => (tr, .failure (docdbFailureResponse weirdRequestEvent err) err)) ∧
    (pgSuccessResponse Env.empty weirdRequestEvent).PhysicalResourceId =
      some ("postgres-init-" ++ (pg_db_host Env.empty weirdRequestEvent).getD "" ++ "-" ++
            pg_db_name Env.empty weirdRequestEvent) ∧
    (pgSuccessResponse Env.empty weirdRequestEvent).DataMessage =
      some "PostgreSQL initialized successfully" ∧
    (docdbSuccessResponse Env.empty weirdRequestEvent).PhysicalResourceId =
      some ("docdb-init-" ++ (docdb_db_host Env.empty weirdRequestEvent).getD "" ++ "-" ++
            docdb_db_name Env.empty weirdRequestEvent) ∧
    (docdbSuccessResponse Env.empty weirdRequestEvent).DataMessage =
      some "DocumentDB initialized successfully" ∧
    (∀ tr resp, pgTryBody Env.empty (fun _ => none) (fun _ => .success) (fun _ => 0) (.ok ())
        weirdRequestEvent = (tr, .ok resp) →
      resp = pgSuccessResponse Env.empty weirdRequestEvent) ∧
    (∀ tr resp, docdbTryBody Env.empty (fun _ => none) (.ok ()) (fun _ => .success) (.ok ())
        weirdRequestEvent = (tr, .ok resp) →
      resp = docdbSuccessResponse Env.empty weirdRequestEvent) ∧
    (∀ err, (pgFailureResponse weirdRequestEvent err).PhysicalResourceId =
        some (weirdRequestEvent.PhysicalResourceId.getD "postgres-init") ∧
      (pgFailureResponse weirdRequestEvent err).Reason =
        some (err.name ++ ": " ++ err.msg)) ∧
    (∀ err, (docdbFailureResponse weirdRequestEvent err).PhysicalResourceId =
        some (weirdRequestEvent.PhysicalResourceId.getD "docdb-init") ∧
      (docdbFailureResponse weirdRequestEvent err).Reason = some err.msg) :=
  c10_unrecognized_request_type Env.empty (fun _ => none) (fun _ => .success) (fun _ => 0)
    (.ok ()) (.ok ()) (fun _ => .success) (.ok ()) weirdRequestEvent "Recreate"
    rfl (by decide) (by decide) (by decide) (by decide)

end LibrechatInit
